import Mathlib

/-!
Verification development for the mail connector repository
(email_reader_sdk.py, email_server.py).

The Python code is shallowly embedded: pure logic becomes Lean functions,
file and network effects become explicit parameters (the persisted token
file is an `Option TokenData` value, remote-call outcomes are Boolean
oracles), and clock readings become an explicit `now : Nat` argument
(epoch seconds).  Machine reals only appear in the source as epoch-second
timestamps compared with `<`, so they are modelled by naturals; the
interval arithmetic of email_server.py is carried out exactly over `ℚ`
(the floating point evaluation of `0.5 * 60` and `0.1 * 60` yields exactly
30.0 and 6.0, so the rational model agrees with the source).
-/

/-! ### Python string primitives used by the source
`lowerChars` models `str.lower()` and `strIn` models the Python
`needle in haystack` substring test, both on the character list of a
string. -/

def lowerChars (l : List Char) : List Char := l.map Char.toLower

def strIn (need hay : List Char) : Bool :=
  match hay with
  | [] => need.isEmpty
  | _ :: t => need.isPrefixOf hay || strIn need t

/-! ### email_reader_sdk.py : CachedTokenCredential (lines 20-66) -/

/-- Model of azure.core.credentials.AccessToken: a bearer token string and
an absolute expiry instant in epoch seconds. -/
structure AccessToken where
  token : String
  expires_on : Nat
deriving DecidableEq, Repr

/-- Parsed content of token.json as read at lines 40-44: each field is
what `token_data.get(...)` returns, `none` when the key is missing. -/
structure TokenData where
  access_token : Option String
  expires_on : Option Nat
deriving DecidableEq, Repr

namespace CachedTokenCredential

/-- Embedding of `CachedTokenCredential._get_cached_token` (lines 36-54).
The persisted file is `file : Option TokenData` (`none` covers a missing
file and any read or parse failure, both of which fall into the
`except: pass` branch).  Line 46 tests Python truthiness of the two
retrieved values: `None`, the empty string and the number 0 are all
falsy, which the `getD` defaults capture.  Line 49 compares the current
time strictly against the expiry. -/
def get_cached_token (file : Option TokenData) (now : Nat) : Option AccessToken :=
  match file with
  | none => none
  | some td =>
    let tok := td.access_token.getD ""
    let exp := td.expires_on.getD 0
    if tok ≠ "" ∧ exp ≠ 0 then
      if now < exp then some ⟨tok, exp⟩ else none
    else none

/-- Content written by `save_token` (lines 59-64): a two-field record with
the token string and the expiry instant. -/
def save_token_data (tok : AccessToken) : TokenData :=
  ⟨some tok.token, some tok.expires_on⟩

/-- Embedding of `CachedTokenCredential.get_token` (lines 27-34): return
the cached token when one is valid, otherwise fall through to the device
credential.  `freshTok` is the token the external provider would return;
the Boolean records whether that external call was made. -/
def get_token (file : Option TokenData) (now : Nat) (freshTok : AccessToken) :
    AccessToken × Bool :=
  match get_cached_token file now with
  | some t => (t, false)
  | none => (freshTok, true)

/-- States the token.json slot passes through during `save_token`
(lines 63-64): the old content, then the empty file produced by opening
with mode "w" (which truncates in place), then the fully written new
entry.  There is no temporary file and no rename in the source. -/
inductive SlotState where
  | entry (d : TokenData)
  | truncated
deriving DecidableEq, Repr

/-- Trace of slot states during `save_token old` then writing `tok`:
initial content, truncated-on-open, complete new entry.  A crash between
the open and the dump leaves the slot in the middle state. -/
def save_token_trace (old : SlotState) (tok : AccessToken) : List SlotState :=
  [old, SlotState.truncated, SlotState.entry (save_token_data tok)]

/-- Whether an exception escapes `save_token` to its caller: the body is
wrapped in try/except (lines 58-66) whose handler only prints a warning,
so no failure propagates, whatever the write outcome. -/
def save_token_raises (_writeFails : Bool) : Bool :=
  false

end CachedTokenCredential

/-! ### email_reader_sdk.py : EmailReaderSDK.authenticate (lines 100-126) -/

namespace EmailReaderSDK

/-- Embedding of the successful-path body of `authenticate`
(lines 105-121) for a not-yet-authenticated reader: the probe API call
`client.me.get()` either succeeds (`apiOk`) or raises; on success the
credential is fetched through `get_token` and persisted with
`save_token`.  Result: (authenticate returned True, token file
afterwards, external provider contacted by the explicit `get_token`
call). -/
def authenticate_flow (file : Option TokenData) (now : Nat)
    (freshTok : AccessToken) (apiOk : Bool) :
    Bool × Option TokenData × Bool :=
  if apiOk then
    let r := CachedTokenCredential.get_token file now freshTok
    (true, some (CachedTokenCredential.save_token_data r.1), r.2)
  else
    (false, file, false)

end EmailReaderSDK

/-! ### email_reader_sdk.py : mail folders (lines 264-312) -/

/-- Model of msgraph MailFolder: the two fields the source reads. -/
structure MailFolder where
  display_name : Option String
  id : Option String
deriving DecidableEq, Repr

/-- Remote mailbox state as far as the folder operations observe it: the
folder list returned by `get_mail_folders` plus a counter from which the
server mints fresh folder ids. -/
structure Mailbox where
  folders : List MailFolder
  nextId : Nat
deriving DecidableEq, Repr

namespace EmailReaderSDK

/-- Predicate of the loop test at line 280: the folder has a truthy
display name and it equals the requested name case-insensitively. -/
def folder_name_matches (folder_name : String) (f : MailFolder) : Bool :=
  match f.display_name with
  | none => false
  | some dn => dn ≠ "" && lowerChars dn.data == lowerChars folder_name.data

/-- Embedding of `find_folder_by_name` (lines 273-282) on a successfully
fetched folder list: first folder whose truthy display name equals the
requested name after lowering both sides. -/
def find_folder_by_name (folders : List MailFolder) (folder_name : String) :
    Option MailFolder :=
  folders.find? (folder_name_matches folder_name)

/-- Embedding of `create_folder` (lines 284-294) on the success path: the
server stores a new folder with the requested display name and a fresh
id, and returns it. -/
def create_folder (mb : Mailbox) (folder_name : String) :
    MailFolder × Mailbox :=
  let f : MailFolder := ⟨some folder_name, some (toString mb.nextId)⟩
  (f, ⟨mb.folders ++ [f], mb.nextId + 1⟩)

/-- Embedding of `ensure_folder_exists` (lines 296-312) with successful
remote calls: find the folder and return it unchanged, otherwise create
it. -/
def ensure_folder_exists (mb : Mailbox) (folder_name : String) :
    MailFolder × Mailbox :=
  match find_folder_by_name mb.folders folder_name with
  | some f => (f, mb)
  | none => create_folder mb folder_name

end EmailReaderSDK

/-! ### email_reader_sdk.py : process_emails_by_subject (lines 314-361) -/

/-- Model of msgraph Message: the two fields the classification loop
reads. -/
structure Message where
  id : Option String
  subject : Option String
deriving DecidableEq, Repr

namespace EmailReaderSDK

/-- Test applied to each message by lines 348-351: both subject and id
are truthy, and the lowered search term occurs in the lowered subject. -/
def message_matches (search_term : String) (m : Message) : Bool :=
  match m.subject, m.id with
  | some s, some i =>
    s ≠ "" && i ≠ "" && strIn (lowerChars search_term.data) (lowerChars s.data)
  | _, _ => false

/-- The per-message loop of `process_emails_by_subject` (lines 347-358)
over the fetched message list.  `moveOk` is the outcome
`move_message` reports for each message (it returns False rather than
raising on failure, lines 314-326).  Accumulates the `moved_count`
of line 344 together with the number of logged move failures
(line 358). -/
def process_loop (search_term : String) (moveOk : Message → Bool) :
    List Message → Nat → Nat → Nat × Nat
  | [], moved, failed => (moved, failed)
  | m :: rest, moved, failed =>
    if message_matches search_term m then
      if moveOk m then process_loop search_term moveOk rest (moved + 1) failed
      else process_loop search_term moveOk rest moved (failed + 1)
    else process_loop search_term moveOk rest moved failed

/-- Counts reported by a pass over a fetched page: moved messages and
logged move failures. -/
def process_counts (search_term : String) (moveOk : Message → Bool)
    (msgs : List Message) : Nat × Nat :=
  process_loop search_term moveOk msgs 0 0

/-- Return value of `process_emails_by_subject` after the loop
(line 361): whether any message was moved. -/
def process_emails_by_subject_result (search_term : String)
    (moveOk : Message → Bool) (msgs : List Message) : Bool :=
  (process_counts search_term moveOk msgs).1 > 0

end EmailReaderSDK

/-! ### email_server.py : intervals and the server loop (lines 16-131) -/

/-- Line 17 of email_server.py. -/
def DEVELOPMENT_MODE : Bool := true

/-- Lines 19-24: interval selection by mode, in minutes, carried exactly
over the rationals. -/
def CHECK_INTERVAL_MINUTES : ℚ := if DEVELOPMENT_MODE then 1 / 2 else 60

/-- Lines 19-24. -/
def ERROR_RETRY_MINUTES : ℚ := if DEVELOPMENT_MODE then 1 / 10 else 1

/-- Line 27: int(minutes * 60); the operands are positive so the Python
truncation toward zero is the floor. -/
def CHECK_INTERVAL_SECONDS : ℤ := ⌊CHECK_INTERVAL_MINUTES * 60⌋

/-- Line 28. -/
def ERROR_RETRY_SECONDS : ℤ := ⌊ERROR_RETRY_MINUTES * 60⌋

/-- Outcome of one `_process_emails()` call as the loop at lines 61-95
observes it: either the awaited call returns, or it raises and control
transfers to the except branch at line 81. -/
inductive PassResult where
  | completed
  | raised
deriving DecidableEq, Repr

namespace EmailServer

/-- Sleep duration the loop body (lines 61-95) schedules after one pass:
a raising pass reaches the handler at lines 81-95 and waits with timeout
`error_retry_interval`; a clean pass waits with timeout `check_interval`,
guarded by the `if self.running` test at line 65 (no sleep when the
server was stopped during the pass). -/
def loop_sleep_seconds (running : Bool) (r : PassResult) : Option ℤ :=
  match r with
  | .raised => some ERROR_RETRY_SECONDS
  | .completed => if running then some CHECK_INTERVAL_SECONDS else none

/-- Outcome of the guarded sleep
`asyncio.wait_for(self.shutdown_event.wait(), timeout)` used at
lines 72-79 and 88-95: the wait returns as soon as the event is set,
else TimeoutError fires after the full timeout. -/
inductive SleepResult where
  | interrupted (elapsed : ℤ)
  | timedOut
deriving DecidableEq, Repr

/-- Semantics of the guarded sleep: if the shutdown event becomes set at
time `t` (measured from the start of the sleep) before the timeout
elapses, the wait completes at `t`; otherwise it times out.  `none`
means the signal never arrives during this sleep. -/
def wait_for_shutdown (timeout : ℤ) (signalAt : Option ℤ) : SleepResult :=
  match signalAt with
  | some t => if t < timeout then SleepResult.interrupted t else SleepResult.timedOut
  | none => SleepResult.timedOut

/-- Time spent inside the guarded sleep. -/
def sleep_elapsed (timeout : ℤ) (r : SleepResult) : ℤ :=
  match r with
  | .interrupted t => t
  | .timedOut => timeout

/-- What the loop does after the guarded sleep: a completed wait runs the
`break` at lines 77 and 93 ending the loop with no further pass, a
TimeoutError falls through the `pass` at lines 79 and 95 and the loop
runs another pass. -/
def loop_continues (r : SleepResult) : Bool :=
  match r with
  | .interrupted _ => false
  | .timedOut => true

/-- Embedding of the signal handler (lines 122-126): it clears `running`
and sets the shutdown event, nothing else. -/
def signal_handler (_running : Bool) (_shutdownSet : Bool) : Bool × Bool :=
  (false, true)

/-- Observable outcome of `EmailServer.start` (lines 38-97) as a function
of the single startup authentication attempt (lines 50-52): on failure
it prints the diagnostic at line 51 and returns before the loop; on
success it enters the `while self.running` loop. -/
structure StartResult where
  printedAuthFailure : Bool
  enteredLoop : Bool
deriving DecidableEq, Repr

/-- Lines 50-55 of email_server.py. -/
def start_outcome (authOk : Bool) : StartResult :=
  if authOk then ⟨false, true⟩ else ⟨true, false⟩

end EmailServer

/-- Process exit status of email_server.py as a function of the startup
authentication outcome: `main` (lines 133-144) catches every exception
and `start` returns normally on authentication failure, the script never
calls sys.exit, and asyncio.run(main()) at line 164 therefore finishes
normally, so the interpreter exits with status 0 on every path through
`start`. -/
def email_server_exit_code (_authOk : Bool) : Nat := 0

/-! ## Claims -/

/-- C1: a Workflow Runner pass that raises into the scheduler loop is
followed by a wait of ERROR_RETRY_SECONDS = 6 seconds, and a pass that
completes cleanly (with the server still running) by a wait of
CHECK_INTERVAL_SECONDS = 30 seconds. -/
theorem scheduler_sleep_intervals :
    EmailServer.loop_sleep_seconds true PassResult.raised = some ERROR_RETRY_SECONDS ∧
    EmailServer.loop_sleep_seconds true PassResult.completed = some CHECK_INTERVAL_SECONDS ∧
    ERROR_RETRY_SECONDS = 6 ∧ CHECK_INTERVAL_SECONDS = 30 := by
  refine ⟨rfl, rfl, ?_, ?_⟩ <;>
    norm_num [ERROR_RETRY_SECONDS, CHECK_INTERVAL_SECONDS, ERROR_RETRY_MINUTES,
      CHECK_INTERVAL_MINUTES, DEVELOPMENT_MODE]

/-- C2 counterexample: when the startup authentication attempt fails the
server prints the diagnostic and never enters the loop, but the process
exit status is 0, not non-zero as claimed (start returns normally, main
swallows every exception and sys.exit is never called). -/
theorem startup_auth_failure_exit_not_nonzero :
    (EmailServer.start_outcome false).enteredLoop = false ∧
    (EmailServer.start_outcome false).printedAuthFailure = true ∧
    ¬ email_server_exit_code false ≠ 0 := by
  decide

/-- C2 amended: if the single startup authentication attempt fails, the
process never enters the periodic loop, prints a diagnostic, and
terminates normally with exit status 0. -/
theorem startup_auth_failure_no_loop_clean_exit :
    (EmailServer.start_outcome false).enteredLoop = false ∧
    (EmailServer.start_outcome false).printedAuthFailure = true ∧
    email_server_exit_code false = 0 := by
  decide

/-- C3 counterexample: the slot trace of save_token contains the
truncated state (the file opened with mode "w" before the new content is
written), which is neither the complete old entry nor the complete new
entry, so a crash mid-store can leave partial content. -/
theorem save_token_not_atomic :
    CachedTokenCredential.SlotState.truncated ∈
      CachedTokenCredential.save_token_trace
        (CachedTokenCredential.SlotState.entry ⟨some "oldtok", some 100⟩)
        ⟨"newtok", 200⟩ ∧
    CachedTokenCredential.SlotState.truncated ≠
      CachedTokenCredential.SlotState.entry ⟨some "oldtok", some 100⟩ ∧
    CachedTokenCredential.SlotState.truncated ≠
      CachedTokenCredential.SlotState.entry
        (CachedTokenCredential.save_token_data ⟨"newtok", 200⟩) := by
  decide

/-- C3 amended: save_token overwrites the slot in place (truncate on
open, then write), so the trace ends with the complete new entry but
passes through the truncated state right after the old one; a store
failure never raises to the caller (logged, non-fatal). -/
theorem save_token_in_place_overwrite (old : CachedTokenCredential.SlotState)
    (tok : AccessToken) (writeFails : Bool) :
    (CachedTokenCredential.save_token_trace old tok).getLast? =
      some (CachedTokenCredential.SlotState.entry
        (CachedTokenCredential.save_token_data tok)) ∧
    (CachedTokenCredential.save_token_trace old tok).get? 1 =
      some CachedTokenCredential.SlotState.truncated ∧
    (CachedTokenCredential.save_token_trace old tok).get? 0 = some old ∧
    CachedTokenCredential.save_token_raises writeFails = false := by
  refine ⟨?_, rfl, rfl, rfl⟩
  rfl

/-- C4: a call to get_token returns a valid cached credential without
contacting the external provider; with no valid cached credential the
provider token is returned and, in the authenticate flow that follows a
successful probe call, that fresh token is persisted to the slot. -/
theorem get_token_prefers_valid_cache (file : Option TokenData) (now : Nat)
    (freshTok : AccessToken) :
    (∀ t, CachedTokenCredential.get_cached_token file now = some t →
      CachedTokenCredential.get_token file now freshTok = (t, false)) ∧
    (CachedTokenCredential.get_cached_token file now = none →
      CachedTokenCredential.get_token file now freshTok = (freshTok, true) ∧
      (EmailReaderSDK.authenticate_flow file now freshTok true).2.1 =
        some (CachedTokenCredential.save_token_data freshTok)) := by
  constructor
  · intro t h
    simp [CachedTokenCredential.get_token, h]
  · intro h
    refine ⟨?_, ?_⟩
    · simp [CachedTokenCredential.get_token, h]
    · simp [EmailReaderSDK.authenticate_flow, CachedTokenCredential.get_token, h]

/-- C4 witness: a concrete valid cache entry is returned without the
external call, and a missing cache entry yields the fresh provider token
which the authenticate flow persists. -/
theorem get_token_prefers_valid_cache_witness :
    CachedTokenCredential.get_token (some ⟨some "c", some 100⟩) 50 ⟨"f", 10⟩ =
      (⟨"c", 100⟩, false) ∧
    (CachedTokenCredential.get_token none 0 ⟨"f", 10⟩ = (⟨"f", 10⟩, true) ∧
      (EmailReaderSDK.authenticate_flow none 0 ⟨"f", 10⟩ true).2.1 =
        some (CachedTokenCredential.save_token_data ⟨"f", 10⟩)) :=
  ⟨(get_token_prefers_valid_cache (some ⟨some "c", some 100⟩) 50 ⟨"f", 10⟩).1
      ⟨"c", 100⟩ (by decide),
   (get_token_prefers_valid_cache none 0 ⟨"f", 10⟩).2 (by decide)⟩

/-- C5: for a persisted entry with truthy fields, the cached credential
is returned exactly when now is strictly before the expiry; at the exact
boundary now = expiry nothing is returned. -/
theorem cached_token_valid_iff_now_before_expiry (tok : String) (exp now : Nat)
    (htok : tok ≠ "") (hexp : exp ≠ 0) :
    (CachedTokenCredential.get_cached_token (some ⟨some tok, some exp⟩) now =
        some ⟨tok, exp⟩ ↔ now < exp) ∧
    CachedTokenCredential.get_cached_token (some ⟨some tok, some exp⟩) exp = none := by
  refine ⟨?_, ?_⟩
  · simp only [CachedTokenCredential.get_cached_token, Option.getD_some]
    rw [if_pos ⟨htok, hexp⟩]
    constructor
    · intro h
      by_contra hlt
      rw [if_neg hlt] at h
      exact Option.noConfusion h
    · intro h
      rw [if_pos h]
  · simp only [CachedTokenCredential.get_cached_token, Option.getD_some]
    rw [if_pos ⟨htok, hexp⟩, if_neg (lt_irrefl exp)]

/-- C5 witness: a concrete entry is valid before its expiry and invalid
at the boundary. -/
theorem cached_token_valid_iff_now_before_expiry_witness :
    (CachedTokenCredential.get_cached_token (some ⟨some "tok", some 5⟩) 3 =
        some ⟨"tok", 5⟩ ↔ 3 < 5) ∧
    CachedTokenCredential.get_cached_token (some ⟨some "tok", some 5⟩) 5 = none :=
  cached_token_valid_iff_now_before_expiry "tok" 5 3 (by decide) (by decide)

/-- C6 counterexample: storing a credential and loading after its expiry
yields nothing, not a credential identical to the stored one (load
applies the validity check, lines 46-50). -/
theorem store_load_roundtrip_counterexample :
    CachedTokenCredential.get_cached_token
      (some (CachedTokenCredential.save_token_data ⟨"tok", 5⟩)) 7 = none ∧
    CachedTokenCredential.get_cached_token
      (some (CachedTokenCredential.save_token_data ⟨"tok", 5⟩)) 7 ≠
      some ⟨"tok", 5⟩ := by
  decide

/-- C6 amended: for a credential with a nonempty token, storing it and
loading strictly before its expiry yields a credential with identical
token and expiry. -/
theorem store_load_roundtrip (tok : String) (exp now : Nat)
    (htok : tok ≠ "") (hnow : now < exp) :
    CachedTokenCredential.get_cached_token
      (some (CachedTokenCredential.save_token_data ⟨tok, exp⟩)) now =
      some ⟨tok, exp⟩ := by
  have hexp : exp ≠ 0 := by omega
  simp only [CachedTokenCredential.save_token_data,
    CachedTokenCredential.get_cached_token, Option.getD_some]
  rw [if_pos ⟨htok, hexp⟩, if_pos hnow]

/-- C6 witness: the round trip at a concrete credential and time. -/
theorem store_load_roundtrip_witness :
    CachedTokenCredential.get_cached_token
      (some (CachedTokenCredential.save_token_data ⟨"tok", 5⟩)) 3 =
      some ⟨"tok", 5⟩ :=
  store_load_roundtrip "tok" 5 3 (by decide) (by decide)

/-- C7: a shutdown signal arriving at any time strictly before the
guarded sleep would time out completes the wait at that instant (the
elapsed time is the signal arrival time, strictly less than the full
timeout) and the loop does not start another pass. -/
theorem shutdown_interrupts_sleep (timeout t : ℤ) (h : t < timeout) :
    EmailServer.wait_for_shutdown timeout (some t) =
      EmailServer.SleepResult.interrupted t ∧
    EmailServer.loop_continues (EmailServer.wait_for_shutdown timeout (some t)) =
      false ∧
    EmailServer.sleep_elapsed timeout
      (EmailServer.wait_for_shutdown timeout (some t)) < timeout := by
  simp [EmailServer.wait_for_shutdown, EmailServer.loop_continues,
    EmailServer.sleep_elapsed, h]

/-- C7 witness: a signal 5 seconds into a 30 second sleep ends the wait
at 5 seconds and the loop exits. -/
theorem shutdown_interrupts_sleep_witness :
    EmailServer.wait_for_shutdown 30 (some 5) =
      EmailServer.SleepResult.interrupted 5 ∧
    EmailServer.loop_continues (EmailServer.wait_for_shutdown 30 (some 5)) =
      false ∧
    EmailServer.sleep_elapsed 30 (EmailServer.wait_for_shutdown 30 (some 5)) < 30 :=
  shutdown_interrupts_sleep 30 5 (by decide)

/-- C8: starting from a mailbox with no folder matching the requested
name, running ensure_folder_exists twice with the same (nonempty) name
returns the same folder and the same mailbox both times (the second call
is a no-op returning the folder the first call created) and leaves
exactly one folder matching that name. -/
theorem ensure_folder_idempotent (mb : Mailbox) (folder_name : String)
    (hname : folder_name ≠ "")
    (habsent : mb.folders.filter (EmailReaderSDK.folder_name_matches folder_name) = []) :
    EmailReaderSDK.ensure_folder_exists
        (EmailReaderSDK.ensure_folder_exists mb folder_name).2 folder_name =
      EmailReaderSDK.ensure_folder_exists mb folder_name ∧
    ((EmailReaderSDK.ensure_folder_exists mb folder_name).2.folders.filter
        (EmailReaderSDK.folder_name_matches folder_name)).length = 1 := by
  have hnone : mb.folders.find? (EmailReaderSDK.folder_name_matches folder_name) = none := by
    rw [List.find?_eq_none]
    intro x hx hpx
    have hmem : x ∈ mb.folders.filter (EmailReaderSDK.folder_name_matches folder_name) :=
      List.mem_filter.2 ⟨hx, hpx⟩
    rw [habsent] at hmem
    exact absurd hmem (List.not_mem_nil x)
  have hself : EmailReaderSDK.folder_name_matches folder_name
      ⟨some folder_name, some (toString mb.nextId)⟩ = true := by
    simp [EmailReaderSDK.folder_name_matches, hname]
  have h2 : EmailReaderSDK.ensure_folder_exists mb folder_name =
      (⟨some folder_name, some (toString mb.nextId)⟩,
       ⟨mb.folders ++ [⟨some folder_name, some (toString mb.nextId)⟩],
        mb.nextId + 1⟩) := by
    simp [EmailReaderSDK.ensure_folder_exists, EmailReaderSDK.find_folder_by_name,
      hnone, EmailReaderSDK.create_folder]
  have hfind2 : (mb.folders ++
      [(⟨some folder_name, some (toString mb.nextId)⟩ : MailFolder)]).find?
        (EmailReaderSDK.folder_name_matches folder_name) =
      some ⟨some folder_name, some (toString mb.nextId)⟩ := by
    rw [List.find?_append, hnone]
    simp [List.find?_cons_of_pos, hself]
  refine ⟨?_, ?_⟩
  · rw [h2]
    simp [EmailReaderSDK.ensure_folder_exists, EmailReaderSDK.find_folder_by_name,
      hfind2]
  · rw [h2]
    simp [List.filter_append, habsent, hself]

/-- C8 witness: ensuring the folder "daily meetings" twice on an empty
mailbox returns the same folder and mailbox both times and leaves
exactly one matching folder. -/
theorem ensure_folder_idempotent_witness :
    EmailReaderSDK.ensure_folder_exists
        (EmailReaderSDK.ensure_folder_exists ⟨[], 0⟩ "daily meetings").2
        "daily meetings" =
      EmailReaderSDK.ensure_folder_exists ⟨[], 0⟩ "daily meetings" ∧
    ((EmailReaderSDK.ensure_folder_exists ⟨[], 0⟩ "daily meetings").2.folders.filter
        (EmailReaderSDK.folder_name_matches "daily meetings")).length = 1 :=
  ensure_folder_idempotent ⟨[], 0⟩ "daily meetings" (by decide) (by decide)

/-- Helper for C9: the per-message loop started at arbitrary
accumulators adds the number of matching messages whose move succeeds
and the number of matching messages whose move fails, over the whole
list. -/
theorem process_loop_spec (search_term : String) (moveOk : Message → Bool)
    (msgs : List Message) :
    ∀ (moved failed : Nat),
    EmailReaderSDK.process_loop search_term moveOk msgs moved failed =
      (moved + (msgs.filter fun m =>
        EmailReaderSDK.message_matches search_term m && moveOk m).length,
       failed + (msgs.filter fun m =>
        EmailReaderSDK.message_matches search_term m && !moveOk m).length) := by
  induction msgs with
  | nil => intro moved failed; simp [EmailReaderSDK.process_loop]
  | cons m rest ih =>
    intro moved failed
    cases hm : EmailReaderSDK.message_matches search_term m <;>
      cases hk : moveOk m <;>
        simp [EmailReaderSDK.process_loop, hm, hk, ih, List.filter_cons,
          Prod.mk.injEq] <;>
          omega

/-- C9: a pass over a fetched page processes every message whatever the
individual move outcomes: the reported moved count is the number of
matching messages whose move succeeded and one failure is logged per
matching message whose move failed, over the whole list.  In the
concrete three-message scenario where messages 1 and 3 match the rule
and only the move of message 1 succeeds, the pass reports 1 moved,
logs 1 failure and returns True. -/
theorem pass_continues_after_move_failure (search_term : String)
    (moveOk : Message → Bool) (msgs : List Message) :
    EmailReaderSDK.process_counts search_term moveOk msgs =
      ((msgs.filter fun m =>
        EmailReaderSDK.message_matches search_term m && moveOk m).length,
       (msgs.filter fun m =>
        EmailReaderSDK.message_matches search_term m && !moveOk m).length) ∧
    EmailReaderSDK.process_counts "meetings" (fun m => m.id == some "m1")
      [⟨some "m1", some "Team Meetings today"⟩,
       ⟨some "m2", some "lunch"⟩,
       ⟨some "m3", some "all meetings cancelled"⟩] = (1, 1) ∧
    EmailReaderSDK.process_emails_by_subject_result "meetings"
      (fun m => m.id == some "m1")
      [⟨some "m1", some "Team Meetings today"⟩,
       ⟨some "m2", some "lunch"⟩,
       ⟨some "m3", some "all meetings cancelled"⟩] = true := by
  refine ⟨?_, by decide, by decide⟩
  simp [EmailReaderSDK.process_counts, process_loop_spec]

/-- C10: a persisted entry whose token string is empty or whose expiry
equals 0 is treated as a cache miss at any time, even though the entry
parses, because line 46 tests truthiness of both fields. -/
theorem falsy_cache_fields_are_cache_miss (tok : String) (exp now : Nat) :
    CachedTokenCredential.get_cached_token (some ⟨some "", some exp⟩) now = none ∧
    CachedTokenCredential.get_cached_token (some ⟨some tok, some 0⟩) now = none := by
  constructor <;> simp [CachedTokenCredential.get_cached_token]
